import Mathlib

/-!
Verification of the student-resource REST handler
(`src/routes/studentsRoutes.js`) against its specification.

The module exports ten Express handlers over a Mongoose `Student`
collection.  We shallowly embed them here:

* a `Student` document is a record of its schema fields plus the
  store-assigned `id` and `createdAt` values;
* the document store (MongoDB via Mongoose) is modelled as a
  `List Student` together with executable semantics for the query and
  update operators the routes build (`$gte`, `$in`, `$or`, `$regex` with
  the `i` option on literal patterns, `$inc`, `$push`, `$set`,
  `$group`/`$sum`/`$avg`/`$max`/`$min`, `$sort`);
* each route handler becomes a pure function from the outcome of its
  single store call (an `Except String _`, whose `error` constructor
  models a rejected promise caught by the handler's `catch` block) to
  the JSON response it sends, captured as an `ApiResponse` record.
-/

/-- A student document: the schema fields used by the routes
(`name`, `marks`, `course`, `city`, `subjects`, `enrolled`) plus the
store-assigned unique identifier and creation timestamp. -/
structure Student where
  id : Nat
  name : String
  marks : Int
  course : String
  city : String
  subjects : List String
  enrolled : Bool
  createdAt : Nat
deriving DecidableEq, Repr

/-- The body of a create request: the writable schema fields, before the
store assigns an identifier and a creation timestamp. -/
structure StudentBody where
  name : String
  marks : Int
  course : String
  city : String
  subjects : List String
  enrolled : Bool
deriving DecidableEq, Repr

/-- Semantics of JavaScript `s.split(sep)` for a one-character separator,
on the character list of `s`: split at every occurrence of `sep`, keeping
empty pieces (so `"".split(",") = [""]`). -/
def jsSplitChars (sep : Char) (cur : List Char) : List Char → List String
  | [] => [String.mk cur.reverse]
  | c :: cs =>
      if c == sep then String.mk cur.reverse :: jsSplitChars sep [] cs
      else jsSplitChars sep (c :: cur) cs

/-- JavaScript `s.split(sep)` for a one-character separator. -/
def jsSplit (sep : Char) (s : String) : List String :=
  jsSplitChars sep [] s.toList

example : jsSplit ',' "Math,CS" = ["Math", "CS"] := by decide
example : jsSplit ',' "" = [""] := by decide

/-- The query object built by the `/filter` handler (source lines 92-109):
at most a `marks: {$gte: _}` clause, a `course: {$in: _}` clause, and a
`$or: [{city: _}, {marks: {$gte: _}}]` clause. -/
structure StudentQuery where
  marksGte : Option Int
  courseIn : Option (List String)
  orCityMarks : Option (String × Int)
deriving DecidableEq, Repr

/-- Embedding of the query construction in the `/filter` handler
(source lines 90-109): `minMarks` adds `marks: {$gte: minMarks}`;
`courses` adds `course: {$in: courses.split(",")}`; when BOTH `city` and
`minMarks` are present the handler sets
`$or: [{city}, {marks: {$gte: minMarks}}]` and deletes the `marks`
clause.  `minMarks` is modelled already parsed to an `Int` and the
other parameters as the raw strings, `none` meaning absent/falsy. -/
def buildFilterQuery (minMarks : Option Int) (courses : Option String)
    (city : Option String) : StudentQuery :=
  let q1 : StudentQuery := { marksGte := none, courseIn := none, orCityMarks := none }
  let q2 := match minMarks with
    | some m => { q1 with marksGte := some m }
    | none => q1
  let q3 := match courses with
    | some cs => { q2 with courseIn := some (jsSplit ',' cs) }
    | none => q2
  match city, minMarks with
  | some c, some m => { q3 with orCityMarks := some (c, m), marksGte := none }
  | _, _ => q3

/-- MongoDB semantics of a `StudentQuery`: top-level fields are AND-ed;
`$gte` is ≥, `$in` is list membership, the two-branch `$or` is
disjunction. -/
def matchesQuery (q : StudentQuery) (s : Student) : Bool :=
  (match q.marksGte with
    | none => true
    | some m => m ≤ s.marks) &&
  (match q.courseIn with
    | none => true
    | some cs => cs.contains s.course) &&
  (match q.orCityMarks with
    | none => true
    | some (c, m) => s.city == c || m ≤ s.marks)

/-- `Student.find(query)`: the documents of the store matching the query
(store order). -/
def filterStudents (q : StudentQuery) (db : List Student) : List Student :=
  db.filter (fun s => matchesQuery q s)

/-- Prefix test on character lists: `isPref pat l` is true iff `pat` is
a prefix of `l`. -/
def isPref : List Char → List Char → Bool
  | [], _ => true
  | _ :: _, [] => false
  | p :: ps, c :: cs => p == c && isPref ps cs

/-- `hasSub pat l` is true iff `pat` occurs in `l` as a contiguous
sublist. -/
def hasSub (pat : List Char) : List Char → Bool
  | [] => isPref pat []
  | c :: cs => isPref pat (c :: cs) || hasSub pat cs

/-- Semantics of the store evaluating the `/search/:name` query built at
source line 131, `name: {$regex: pattern, $options: "i"}`, for a literal
(metacharacter-free) pattern: the pattern occurs in the name as a
substring, ignoring case. -/
def nameMatchesCI (pattern : String) (name : String) : Bool :=
  hasSub (pattern.toList.map Char.toLower) (name.toList.map Char.toLower)

example : nameMatchesCI "ann" "Anna" = true := by decide
example : nameMatchesCI "ann" "ANNE" = true := by decide
example : nameMatchesCI "ann" "Bob" = false := by decide

/-- `Student.find({name: {$regex: pattern, $options: "i"}})`. -/
def searchStudents (pattern : String) (db : List Student) : List Student :=
  db.filter (fun s => nameMatchesCI pattern s.name)

/-- `mentionsOp desc op`: the operator token `op` occurs in the
description text `desc`. -/
def mentionsOp (desc op : String) : Bool :=
  hasSub op.toList desc.toList

/-- One group produced by the `/stats` aggregation pipeline (source
lines 248-261): `$group` keyed by `$course` with `totalStudents: {$sum: 1}`,
`averageMarks: {$avg: "$marks"}`, `maxMarks: {$max: "$marks"}`,
`minMarks: {$min: "$marks"}`.  The average is modelled exactly as a
rational. -/
structure CourseStats where
  groupId : String
  totalStudents : Nat
  averageMarks : ℚ
  maxMarks : Int
  minMarks : Int
deriving DecidableEq, Repr

/-- The payload carried in a response's `data` field. -/
inductive RespData where
  | nothing : RespData
  | student : Student → RespData
  | students : List Student → RespData
  | stats : List CourseStats → RespData
deriving DecidableEq, Repr

/-- A JSON response as sent by the handlers: the HTTP status and the
envelope fields that appear across the ten routes (`success`, `error`,
`message`, `description`, `count`, `data`); `none` means the field is
absent from the JSON object. -/
structure ApiResponse where
  status : Nat
  success : Bool
  error : Option String
  message : Option String
  description : Option String
  count : Option Nat
  data : RespData
deriving DecidableEq, Repr

example :
    filterStudents (buildFilterQuery (some 50) (some "Math,CS") none)
      [{ id := 1, name := "A", marks := 60, course := "Math", city := "Pune",
         subjects := [], enrolled := false, createdAt := 0 },
       { id := 2, name := "B", marks := 40, course := "CS", city := "Mumbai",
         subjects := [], enrolled := false, createdAt := 1 }] =
      [{ id := 1, name := "A", marks := 60, course := "Math", city := "Pune",
         subjects := [], enrolled := false, createdAt := 0 }] := by decide

example :
    filterStudents (buildFilterQuery (some 50) none (some "Mumbai"))
      [{ id := 1, name := "A", marks := 60, course := "Math", city := "Pune",
         subjects := [], enrolled := false, createdAt := 0 },
       { id := 2, name := "B", marks := 40, course := "CS", city := "Mumbai",
         subjects := [], enrolled := false, createdAt := 1 },
       { id := 3, name := "C", marks := 40, course := "CS", city := "Pune",
         subjects := [], enrolled := false, createdAt := 2 }] =
      [{ id := 1, name := "A", marks := 60, course := "Math", city := "Pune",
         subjects := [], enrolled := false, createdAt := 0 },
       { id := 2, name := "B", marks := 40, course := "CS", city := "Mumbai",
         subjects := [], enrolled := false, createdAt := 1 }] := by decide

/-- Distinct course values appearing in the store, in first-appearance
order: the `$group` keys of the `/stats` pipeline. -/
def coursesOf (db : List Student) : List String :=
  (db.map (fun s => s.course)).dedup

/-- The marks of the students of one course group. -/
def groupMarks (db : List Student) (c : String) : List Int :=
  (db.filter (fun s => s.course == c)).map (fun s => s.marks)

/-- Maximum of a list of integers (`$max`; 0 on the empty list, which the
pipeline never produces since every group is non-empty). -/
def listMax : List Int → Int
  | [] => 0
  | [x] => x
  | x :: y :: t => max x (listMax (y :: t))

/-- Minimum of a list of integers (`$min`; 0 on the empty list, which the
pipeline never produces since every group is non-empty). -/
def listMin : List Int → Int
  | [] => 0
  | [x] => x
  | x :: y :: t => min x (listMin (y :: t))

/-- The `$group` stage of the `/stats` pipeline evaluated for one course
value. -/
def groupStats (db : List Student) (c : String) : CourseStats :=
  { groupId := c,
    totalStudents := (groupMarks db c).length,
    averageMarks := ((groupMarks db c).map (fun m : Int => (m : ℚ))).sum / (groupMarks db c).length,
    maxMarks := listMax (groupMarks db c),
    minMarks := listMin (groupMarks db c) }

/-- The whole `/stats` pipeline (source lines 248-261): `$group` by
course, then `$sort: {averageMarks: -1}`. -/
def statsOf (db : List Student) : List CourseStats :=
  List.insertionSort (fun a b => b.averageMarks ≤ a.averageMarks)
    ((coursesOf db).map (groupStats db))

/-- `Student.find().sort({createdAt: -1})` (source line 48): every
document, newest first. -/
def findAllSorted (db : List Student) : List Student :=
  List.insertionSort (fun a b : Student => b.createdAt ≤ a.createdAt) db

/-- The store materialising a create request: it assigns the next free
identifier and the creation timestamp (modelled by one monotone counter,
so identifiers are unique and timestamps increase with creation order). -/
def materialize (b : StudentBody) (k : Nat) : Student :=
  { id := k, name := b.name, marks := b.marks, course := b.course,
    city := b.city, subjects := b.subjects, enrolled := b.enrolled,
    createdAt := k }

/-- The document store's state: the collection plus the counter backing
identifier/timestamp assignment. -/
structure StoreState where
  db : List Student
  nextId : Nat
deriving DecidableEq, Repr

/-- `Student.create(body)`: insert one document, returning it. -/
def createOne (b : StudentBody) (st : StoreState) : Student × StoreState :=
  (materialize b st.nextId, ⟨st.db ++ [materialize b st.nextId], st.nextId + 1⟩)

/-- A sequence of create requests run against the store. -/
def runCreates : List StudentBody → StoreState → StoreState
  | [], st => st
  | b :: bs, st => runCreates bs (createOne b st).2

/-- `Student.findByIdAndUpdate(id, {$inc: {marks: 5}, $push: {subjects:
"AI"}, $set: {enrolled: true}}, {new: true})` applied to one document
(source lines 182-190). -/
def applyOperatorsUpdate (s : Student) : Student :=
  { s with marks := s.marks + 5, subjects := s.subjects ++ ["AI"], enrolled := true }

/-- Store semantics of `findByIdAndUpdate` with the three fixed operators
and `new: true`: locate the document with the given identifier, apply the
update, return the post-update document and the new store contents
(`none` and the unchanged store when the identifier matches nothing). -/
def findByIdAndUpdateOps (id : Nat) (db : List Student) : Option Student × List Student :=
  match db.find? (fun s => s.id == id) with
  | none => (none, db)
  | some s =>
      (some (applyOperatorsUpdate s),
       db.map (fun t => if t.id == id then applyOperatorsUpdate s else t))

/-- Store semantics of `Student.findByIdAndDelete(id)` (source line 219):
remove the document with the given identifier, returning it (`none` and
the unchanged store when the identifier matches nothing). -/
def findByIdAndDelete (id : Nat) (db : List Student) : Option Student × List Student :=
  match db.find? (fun s => s.id == id) with
  | none => (none, db)
  | some s => (some s, db.eraseP (fun t => t.id == id))

/-- Handler 1, `POST /api/v1/students/create` (source lines 9-22):
201 with the created document, or catch → 400 with the error message. -/
def createHandler (outcome : Except String Student) : ApiResponse :=
  match outcome with
  | .ok s =>
      { status := 201, success := true, error := none, message := none,
        description := none, count := none, data := RespData.student s }
  | .error e =>
      { status := 400, success := false, error := some e, message := none,
        description := none, count := none, data := RespData.nothing }

/-- Handler 2, `POST /api/v1/students/create/bulk` (source lines 25-39):
201 with count and the inserted documents, or catch → 400. -/
def createBulkHandler (outcome : Except String (List Student)) : ApiResponse :=
  match outcome with
  | .ok l =>
      { status := 201, success := true, error := none, message := none,
        description := none, count := some l.length, data := RespData.students l }
  | .error e =>
      { status := 400, success := false, error := some e, message := none,
        description := none, count := none, data := RespData.nothing }

/-- Handler 3, `GET /api/v1/students/get` (source lines 46-61): 200 with
count and all documents newest first, or catch → 500. -/
def getAllHandler (outcome : Except String (List Student)) : ApiResponse :=
  match outcome with
  | .ok db =>
      { status := 200, success := true, error := none, message := none,
        description := none, count := some (findAllSorted db).length,
        data := RespData.students (findAllSorted db) }
  | .error e =>
      { status := 500, success := false, error := some e, message := none,
        description := none, count := none, data := RespData.nothing }

/-- Handler 4, `GET /api/v1/students/get/:id` (source lines 64-85): 200
with the document, 404 when the lookup returns nothing, catch → 500
(a malformed identifier makes `findById` reject and lands here). -/
def getByIdHandler (outcome : Except String (Option Student)) : ApiResponse :=
  match outcome with
  | .ok (some s) =>
      { status := 200, success := true, error := none, message := none,
        description := none, count := none, data := RespData.student s }
  | .ok none =>
      { status := 404, success := false, error := some "Student not found",
        message := none, description := none, count := none, data := RespData.nothing }
  | .error e =>
      { status := 500, success := false, error := some e, message := none,
        description := none, count := none, data := RespData.nothing }

/-- Handler 5, `GET /api/v1/students/filter` (source lines 88-125): build
the query from the optional `minMarks`, `courses`, `city` parameters, run
it, and answer 200 with a fixed description, the count and the matches;
catch → 500. -/
def filterHandler (minMarks : Option Int) (courses : Option String)
    (city : Option String) (outcome : Except String (List Student)) : ApiResponse :=
  match outcome with
  | .ok db =>
      { status := 200, success := true, error := none, message := none,
        description := some "Filtered students using $gte, $in, $or operators",
        count := some (filterStudents (buildFilterQuery minMarks courses city) db).length,
        data := RespData.students (filterStudents (buildFilterQuery minMarks courses city) db) }
  | .error e =>
      { status := 500, success := false, error := some e, message := none,
        description := none, count := none, data := RespData.nothing }

/-- Handler 6, `GET /api/v1/students/search/:name` (source lines
128-146): 200 with a description naming the pattern, the count and the
case-insensitive matches; catch → 500 (an invalid pattern makes the
store call reject and lands here). -/
def searchByNameHandler (pattern : String)
    (outcome : Except String (List Student)) : ApiResponse :=
  match outcome with
  | .ok db =>
      { status := 200, success := true, error := none, message := none,
        description := some ("Students matching '" ++ pattern ++ "' (case-insensitive)"),
        count := some (searchStudents pattern db).length,
        data := RespData.students (searchStudents pattern db) }
  | .error e =>
      { status := 500, success := false, error := some e, message := none,
        description := none, count := none, data := RespData.nothing }

/-- Handler 7, `PUT /api/v1/students/update/:id` (source lines 153-177):
200 with the post-update document, 404 when nothing matches, catch → 400
(validation failures land here). -/
def updateHandler (outcome : Except String (Option Student)) : ApiResponse :=
  match outcome with
  | .ok (some s) =>
      { status := 200, success := true, error := none, message := none,
        description := none, count := none, data := RespData.student s }
  | .ok none =>
      { status := 404, success := false, error := some "Student not found",
        message := none, description := none, count := none, data := RespData.nothing }
  | .error e =>
      { status := 400, success := false, error := some e, message := none,
        description := none, count := none, data := RespData.nothing }

/-- Handler 8, `PUT /api/v1/students/update/:id/operators` (source lines
180-210): 200 with a description and the post-update document, 404 when
nothing matches, catch → 400. -/
def updateOpsHandler (outcome : Except String (Option Student)) : ApiResponse :=
  match outcome with
  | .ok (some s) =>
      { status := 200, success := true, error := none, message := none,
        description := some "Updated using $inc, $push, $set operators",
        count := none, data := RespData.student s }
  | .ok none =>
      { status := 404, success := false, error := some "Student not found",
        message := none, description := none, count := none, data := RespData.nothing }
  | .error e =>
      { status := 400, success := false, error := some e, message := none,
        description := none, count := none, data := RespData.nothing }

/-- Handler 9, `DELETE /api/v1/students/delete/:id` (source lines
217-239): 200 with a confirmation message and the deleted document, 404
when nothing matches, catch → 500. -/
def deleteHandler (outcome : Except String (Option Student)) : ApiResponse :=
  match outcome with
  | .ok (some s) =>
      { status := 200, success := true, error := none,
        message := some "Student deleted successfully",
        description := none, count := none, data := RespData.student s }
  | .ok none =>
      { status := 404, success := false, error := some "Student not found",
        message := none, description := none, count := none, data := RespData.nothing }
  | .error e =>
      { status := 500, success := false, error := some e, message := none,
        description := none, count := none, data := RespData.nothing }

/-- Handler 10, `GET /api/v1/students/stats` (source lines 246-275): 200
with a description and the aggregation result, catch → 500. -/
def statsHandler (outcome : Except String (List Student)) : ApiResponse :=
  match outcome with
  | .ok db =>
      { status := 200, success := true, error := none, message := none,
        description := some "Course-wise statistics using $group, $sum, $avg, $max, $min",
        count := none, data := RespData.stats (statsOf db) }
  | .error e =>
      { status := 500, success := false, error := some e, message := none,
        description := none, count := none, data := RespData.nothing }

/-- C1: if only a marks threshold (and optionally a course list) is
given, the filter returns exactly the students with marks ≥ threshold
AND (when the list is given) course in the list; if both a city and a
marks threshold are given, the marks-only clause is discarded and
replaced by (city = given city) OR (marks ≥ threshold), with the
course-membership clause, if present, still AND-ed alongside. -/
theorem C1_filter_semantics (db : List Student) (m : Int) (cs : Option String)
    (c : String) (s : Student) :
    (s ∈ filterStudents (buildFilterQuery (some m) cs none) db ↔
      s ∈ db ∧ m ≤ s.marks ∧ ∀ str, cs = some str → s.course ∈ jsSplit ',' str) ∧
    (s ∈ filterStudents (buildFilterQuery (some m) cs (some c)) db ↔
      s ∈ db ∧ (s.city = c ∨ m ≤ s.marks) ∧
        ∀ str, cs = some str → s.course ∈ jsSplit ',' str) := by
  cases cs <;>
      simp [filterStudents, buildFilterQuery, matchesQuery, List.mem_filter,
        and_assoc]
  tauto

/-- Witness for C1 at a concrete store and request. -/
theorem C1_filter_semantics_witness :
    ((⟨1, "A", 60, "Math", "Pune", [], false, 0⟩ : Student) ∈
        filterStudents (buildFilterQuery (some 50) (some "Math,CS") none)
          [⟨1, "A", 60, "Math", "Pune", [], false, 0⟩] ↔
      (⟨1, "A", 60, "Math", "Pune", [], false, 0⟩ : Student) ∈
          [(⟨1, "A", 60, "Math", "Pune", [], false, 0⟩ : Student)] ∧
        (50 : Int) ≤ 60 ∧
        ∀ str, (some "Math,CS" : Option String) = some str →
          "Math" ∈ jsSplit ',' str) ∧
    ((⟨1, "A", 60, "Math", "Pune", [], false, 0⟩ : Student) ∈
        filterStudents (buildFilterQuery (some 50) (some "Math,CS") (some "Mumbai"))
          [⟨1, "A", 60, "Math", "Pune", [], false, 0⟩] ↔
      (⟨1, "A", 60, "Math", "Pune", [], false, 0⟩ : Student) ∈
          [(⟨1, "A", 60, "Math", "Pune", [], false, 0⟩ : Student)] ∧
        ("Pune" = "Mumbai" ∨ (50 : Int) ≤ 60) ∧
        ∀ str, (some "Math,CS" : Option String) = some str →
          "Math" ∈ jsSplit ',' str) :=
  C1_filter_semantics [⟨1, "A", 60, "Math", "Pune", [], false, 0⟩] 50
    (some "Math,CS") "Mumbai" ⟨1, "A", 60, "Math", "Pune", [], false, 0⟩

/-- C10: when a city is supplied without a marks threshold, the city
parameter is ignored entirely — the built query and the returned
students equal those of the same request without the city. -/
theorem C10_city_without_minMarks_ignored (cs : Option String) (c : String)
    (db : List Student) :
    buildFilterQuery none cs (some c) = buildFilterQuery none cs none ∧
    filterStudents (buildFilterQuery none cs (some c)) db =
      filterStudents (buildFilterQuery none cs none) db ∧
    filterHandler none cs (some c) (Except.ok db) =
      filterHandler none cs none (Except.ok db) := by
  cases cs <;> exact ⟨rfl, rfl, rfl⟩

/-- C2 counterexample: a malformed identifier makes the store call of
`GET /get/:id` reject, and an invalid pattern makes the store call of
`GET /search/:name` reject; both catch blocks respond 500, not the 400
the claim states. -/
theorem C2_counterexample :
    (getByIdHandler (Except.error "Cast to ObjectId failed for value abc")).status = 500 ∧
    (getByIdHandler (Except.error "Cast to ObjectId failed for value abc")).status ≠ 400 ∧
    (searchByNameHandler "("
        (Except.error "Invalid regular expression: Unterminated group")).status = 500 ∧
    (searchByNameHandler "("
        (Except.error "Invalid regular expression: Unterminated group")).status ≠ 400 := by
  refine ⟨rfl, by decide, rfl, by decide⟩

/-- C2 amended: malformed-identifier and invalid-pattern failures are
surfaced by these two handlers as HTTP 500 (not 400), carrying the
underlying store/validator's message text. -/
theorem C2_amended_status_500 (msg : String) (pattern : String) :
    (getByIdHandler (Except.error msg)).status = 500 ∧
    (getByIdHandler (Except.error msg)).success = false ∧
    (getByIdHandler (Except.error msg)).error = some msg ∧
    (searchByNameHandler pattern (Except.error msg)).status = 500 ∧
    (searchByNameHandler pattern (Except.error msg)).success = false ∧
    (searchByNameHandler pattern (Except.error msg)).error = some msg :=
  ⟨rfl, rfl, rfl, rfl, rfl, rfl⟩

/-- C3: every handler, on every outcome of its single store call,
produces a response envelope with a boolean `success` field; every
failure outcome (rejected store call, or a lookup that finds nothing) is
converted into a `success = false` response carrying an `error` message,
and every success outcome yields `success = true` with no `error`
field. -/
theorem C3_response_envelope (e : String) (s : Student) (l : List Student)
    (minMarks : Option Int) (courses city : Option String) (pattern : String) :
    ((createHandler (Except.ok s)).success = true ∧
      (createHandler (Except.ok s)).error = none) ∧
    ((createHandler (Except.error e)).success = false ∧
      (createHandler (Except.error e)).error = some e) ∧
    ((createBulkHandler (Except.ok l)).success = true ∧
      (createBulkHandler (Except.ok l)).error = none) ∧
    ((createBulkHandler (Except.error e)).success = false ∧
      (createBulkHandler (Except.error e)).error = some e) ∧
    ((getAllHandler (Except.ok l)).success = true ∧
      (getAllHandler (Except.ok l)).error = none) ∧
    ((getAllHandler (Except.error e)).success = false ∧
      (getAllHandler (Except.error e)).error = some e) ∧
    ((getByIdHandler (Except.ok (some s))).success = true ∧
      (getByIdHandler (Except.ok (some s))).error = none) ∧
    ((getByIdHandler (Except.ok none)).success = false ∧
      (getByIdHandler (Except.ok none)).error = some "Student not found") ∧
    ((getByIdHandler (Except.error e)).success = false ∧
      (getByIdHandler (Except.error e)).error = some e) ∧
    ((filterHandler minMarks courses city (Except.ok l)).success = true ∧
      (filterHandler minMarks courses city (Except.ok l)).error = none) ∧
    ((filterHandler minMarks courses city (Except.error e)).success = false ∧
      (filterHandler minMarks courses city (Except.error e)).error = some e) ∧
    ((searchByNameHandler pattern (Except.ok l)).success = true ∧
      (searchByNameHandler pattern (Except.ok l)).error = none) ∧
    ((searchByNameHandler pattern (Except.error e)).success = false ∧
      (searchByNameHandler pattern (Except.error e)).error = some e) ∧
    ((updateHandler (Except.ok (some s))).success = true ∧
      (updateHandler (Except.ok (some s))).error = none) ∧
    ((updateHandler (Except.ok none)).success = false ∧
      (updateHandler (Except.ok none)).error = some "Student not found") ∧
    ((updateHandler (Except.error e)).success = false ∧
      (updateHandler (Except.error e)).error = some e) ∧
    ((updateOpsHandler (Except.ok (some s))).success = true ∧
      (updateOpsHandler (Except.ok (some s))).error = none) ∧
    ((updateOpsHandler (Except.ok none)).success = false ∧
      (updateOpsHandler (Except.ok none)).error = some "Student not found") ∧
    ((updateOpsHandler (Except.error e)).success = false ∧
      (updateOpsHandler (Except.error e)).error = some e) ∧
    ((deleteHandler (Except.ok (some s))).success = true ∧
      (deleteHandler (Except.ok (some s))).error = none) ∧
    ((deleteHandler (Except.ok none)).success = false ∧
      (deleteHandler (Except.ok none)).error = some "Student not found") ∧
    ((deleteHandler (Except.error e)).success = false ∧
      (deleteHandler (Except.error e)).error = some e) ∧
    ((statsHandler (Except.ok l)).success = true ∧
      (statsHandler (Except.ok l)).error = none) ∧
    ((statsHandler (Except.error e)).success = false ∧
      (statsHandler (Except.error e)).error = some e) := by
  repeat' apply And.intro
  all_goals rfl

/-- Witness for C3 at concrete inputs. -/
theorem C3_response_envelope_witness :
    ((createHandler (Except.ok ⟨1, "A", 60, "Math", "Pune", [], false, 0⟩)).success = true ∧
      (createHandler (Except.ok ⟨1, "A", 60, "Math", "Pune", [], false, 0⟩)).error = none) ∧
    ((createHandler (Except.error "boom")).success = false ∧
      (createHandler (Except.error "boom")).error = some "boom") ∧
    ((createBulkHandler (Except.ok [])).success = true ∧
      (createBulkHandler (Except.ok [])).error = none) ∧
    ((createBulkHandler (Except.error "boom")).success = false ∧
      (createBulkHandler (Except.error "boom")).error = some "boom") ∧
    ((getAllHandler (Except.ok [])).success = true ∧
      (getAllHandler (Except.ok [])).error = none) ∧
    ((getAllHandler (Except.error "boom")).success = false ∧
      (getAllHandler (Except.error "boom")).error = some "boom") ∧
    ((getByIdHandler (Except.ok (some ⟨1, "A", 60, "Math", "Pune", [], false, 0⟩))).success = true ∧
      (getByIdHandler (Except.ok (some ⟨1, "A", 60, "Math", "Pune", [], false, 0⟩))).error = none) ∧
    ((getByIdHandler (Except.ok none)).success = false ∧
      (getByIdHandler (Except.ok none)).error = some "Student not found") ∧
    ((getByIdHandler (Except.error "boom")).success = false ∧
      (getByIdHandler (Except.error "boom")).error = some "boom") ∧
    ((filterHandler (some 50) none none (Except.ok [])).success = true ∧
      (filterHandler (some 50) none none (Except.ok [])).error = none) ∧
    ((filterHandler (some 50) none none (Except.error "boom")).success = false ∧
      (filterHandler (some 50) none none (Except.error "boom")).error = some "boom") ∧
    ((searchByNameHandler "ann" (Except.ok [])).success = true ∧
      (searchByNameHandler "ann" (Except.ok [])).error = none) ∧
    ((searchByNameHandler "ann" (Except.error "boom")).success = false ∧
      (searchByNameHandler "ann" (Except.error "boom")).error = some "boom") ∧
    ((updateHandler (Except.ok (some ⟨1, "A", 60, "Math", "Pune", [], false, 0⟩))).success = true ∧
      (updateHandler (Except.ok (some ⟨1, "A", 60, "Math", "Pune", [], false, 0⟩))).error = none) ∧
    ((updateHandler (Except.ok none)).success = false ∧
      (updateHandler (Except.ok none)).error = some "Student not found") ∧
    ((updateHandler (Except.error "boom")).success = false ∧
      (updateHandler (Except.error "boom")).error = some "boom") ∧
    ((updateOpsHandler (Except.ok (some ⟨1, "A", 60, "Math", "Pune", [], false, 0⟩))).success = true ∧
      (updateOpsHandler (Except.ok (some ⟨1, "A", 60, "Math", "Pune", [], false, 0⟩))).error = none) ∧
    ((updateOpsHandler (Except.ok none)).success = false ∧
      (updateOpsHandler (Except.ok none)).error = some "Student not found") ∧
    ((updateOpsHandler (Except.error "boom")).success = false ∧
      (updateOpsHandler (Except.error "boom")).error = some "boom") ∧
    ((deleteHandler (Except.ok (some ⟨1, "A", 60, "Math", "Pune", [], false, 0⟩))).success = true ∧
      (deleteHandler (Except.ok (some ⟨1, "A", 60, "Math", "Pune", [], false, 0⟩))).error = none) ∧
    ((deleteHandler (Except.ok none)).success = false ∧
      (deleteHandler (Except.ok none)).error = some "Student not found") ∧
    ((deleteHandler (Except.error "boom")).success = false ∧
      (deleteHandler (Except.error "boom")).error = some "boom") ∧
    ((statsHandler (Except.ok [])).success = true ∧
      (statsHandler (Except.ok [])).error = none) ∧
    ((statsHandler (Except.error "boom")).success = false ∧
      (statsHandler (Except.error "boom")).error = some "boom") :=
  C3_response_envelope "boom" ⟨1, "A", 60, "Math", "Pune", [], false, 0⟩ []
    (some 50) none none "ann"

/-- C9 counterexample: a filter request supplying no parameter at all
builds an empty query (no combinator applied), yet the response's
description still names the `$or` combinator — the description does not
reflect the combinators actually applied. -/
theorem C9_counterexample :
    ¬ (mentionsOp (((filterHandler none none none (Except.ok [])).description).getD "")
          "$or" = true →
        (buildFilterQuery none none none).orCityMarks.isSome = true) := by
  decide

/-- C9 amended: the filter response's description is the fixed text
"Filtered students using $gte, $in, $or operators", naming all three
combinators regardless of which parameters were supplied for the
request. -/
theorem C9_description_fixed (minMarks : Option Int) (courses city : Option String)
    (db : List Student) :
    (filterHandler minMarks courses city (Except.ok db)).description =
      some "Filtered students using $gte, $in, $or operators" :=
  rfl

/-- `isPref` decides the prefix relation. -/
theorem isPref_iff : ∀ (pat hay : List Char),
    isPref pat hay = true ↔ ∃ r, hay = pat ++ r
  | [], hay => by simp [isPref]
  | _ :: _, [] => by simp [isPref]
  | p :: ps, c :: cs => by
      rw [isPref, Bool.and_eq_true, beq_iff_eq, isPref_iff ps cs]
      constructor
      · rintro ⟨rfl, r, rfl⟩
        exact ⟨r, rfl⟩
      · rintro ⟨r, hr⟩
        simp only [List.cons_append, List.cons.injEq] at hr
        exact ⟨hr.1.symm, r, hr.2⟩

/-- `hasSub` decides contiguous-substring occurrence. -/
theorem hasSub_iff : ∀ (pat hay : List Char),
    hasSub pat hay = true ↔ ∃ l r, hay = l ++ pat ++ r
  | pat, [] => by
      simp [hasSub, isPref_iff pat [], eq_comm]
  | pat, c :: cs => by
      rw [hasSub, Bool.or_eq_true, isPref_iff, hasSub_iff pat cs]
      constructor
      · rintro (⟨r, hr⟩ | ⟨l, r, hr⟩)
        · exact ⟨[], r, by simpa using hr⟩
        · exact ⟨c :: l, r, by simp [hr]⟩
      · rintro ⟨l, r, hr⟩
        cases l with
        | nil => exact Or.inl ⟨r, by simpa using hr⟩
        | cons x xs =>
            simp only [List.cons_append, List.cons.injEq] at hr
            exact Or.inr ⟨xs, r, hr.2⟩

/-- C8: the search operation returns an entity iff the lowercased search
fragment occurs as a contiguous substring of the entity's lowercased
name; in particular "ann" matches "Anna" and "ANNE". -/
theorem C8_search_case_insensitive (pattern : String) (db : List Student)
    (s : Student) :
    (s ∈ searchStudents pattern db ↔
      s ∈ db ∧ ∃ l r, s.name.toList.map Char.toLower =
        l ++ pattern.toList.map Char.toLower ++ r) ∧
    (searchByNameHandler pattern (Except.ok db)).data =
      RespData.students (searchStudents pattern db) ∧
    nameMatchesCI "ann" "Anna" = true ∧
    nameMatchesCI "ann" "ANNE" = true := by
  refine ⟨?_, rfl, by decide, by decide⟩
  simp [searchStudents, List.mem_filter, nameMatchesCI, hasSub_iff]

/-- Witness for C8 at a concrete search. -/
theorem C8_search_case_insensitive_witness :
    ((⟨1, "Anna", 60, "Math", "Pune", [], false, 0⟩ : Student) ∈
        searchStudents "ann" [⟨1, "Anna", 60, "Math", "Pune", [], false, 0⟩] ↔
      (⟨1, "Anna", 60, "Math", "Pune", [], false, 0⟩ : Student) ∈
          [(⟨1, "Anna", 60, "Math", "Pune", [], false, 0⟩ : Student)] ∧
        ∃ l r, "Anna".toList.map Char.toLower =
          l ++ "ann".toList.map Char.toLower ++ r) ∧
    (searchByNameHandler "ann"
        (Except.ok [⟨1, "Anna", 60, "Math", "Pune", [], false, 0⟩])).data =
      RespData.students
        (searchStudents "ann" [⟨1, "Anna", 60, "Math", "Pune", [], false, 0⟩]) ∧
    nameMatchesCI "ann" "Anna" = true ∧
    nameMatchesCI "ann" "ANNE" = true :=
  C8_search_case_insensitive "ann" [⟨1, "Anna", 60, "Math", "Pune", [], false, 0⟩]
    ⟨1, "Anna", 60, "Math", "Pune", [], false, 0⟩

/-- With unique identifiers, `find?` on the identifier locates exactly
the given member. -/
theorem find_by_id_of_nodup (db : List Student) (s : Student)
    (hnd : (db.map (fun t => t.id)).Nodup) (hs : s ∈ db) :
    db.find? (fun t => t.id == s.id) = some s := by
  induction db with
  | nil => cases hs
  | cons h t ih =>
      rw [List.map_cons, List.nodup_cons] at hnd
      rcases List.mem_cons.mp hs with rfl | hmem
      · rw [List.find?_cons_of_pos _ (by simp)]
      · have hne : h.id ≠ s.id := by
          intro he
          exact hnd.1 (he ▸ List.mem_map_of_mem (fun t => t.id) hmem)
        rw [List.find?_cons_of_neg _ (by simp [hne])]
        exact ih hnd.2 hmem

/-- Identifiers are untouched by the operator update, so the store keeps
its identifier uniqueness across it. -/
theorem updateOps_preserves_ids (db : List Student) (i : Nat) (u : Student)
    (hu : u.id = i) :
    (db.map (fun t => if t.id == i then u else t)).map (fun t => t.id) =
      db.map (fun t => t.id) := by
  rw [List.map_map]
  apply List.map_congr_left
  intro a _
  by_cases hc : a.id = i
  · simp [hc, hu]
  · simp [hc]

/-- C4: the operator update applies exactly the three fixed mutations —
marks + 5, "AI" appended to subjects, enrolled set to true, all other
fields unchanged — and returns the post-update entity; applying it twice
adds 10 to marks and appends "AI" twice. -/
theorem C4_operator_update (db : List Student) (s : Student)
    (hnd : (db.map (fun t => t.id)).Nodup) (hs : s ∈ db) :
    (findByIdAndUpdateOps s.id db).1 = some (applyOperatorsUpdate s) ∧
    (applyOperatorsUpdate s).marks = s.marks + 5 ∧
    (applyOperatorsUpdate s).subjects = s.subjects ++ ["AI"] ∧
    (applyOperatorsUpdate s).enrolled = true ∧
    (applyOperatorsUpdate s).id = s.id ∧
    (applyOperatorsUpdate s).name = s.name ∧
    (applyOperatorsUpdate s).course = s.course ∧
    (applyOperatorsUpdate s).city = s.city ∧
    (applyOperatorsUpdate s).createdAt = s.createdAt ∧
    (updateOpsHandler (Except.ok (findByIdAndUpdateOps s.id db).1)).status = 200 ∧
    (updateOpsHandler (Except.ok (findByIdAndUpdateOps s.id db).1)).data =
      RespData.student (applyOperatorsUpdate s) ∧
    (findByIdAndUpdateOps s.id (findByIdAndUpdateOps s.id db).2).1 =
      some (applyOperatorsUpdate (applyOperatorsUpdate s)) ∧
    (applyOperatorsUpdate (applyOperatorsUpdate s)).marks = s.marks + 10 ∧
    (applyOperatorsUpdate (applyOperatorsUpdate s)).subjects =
      s.subjects ++ ["AI", "AI"] := by
  have h1 : db.find? (fun t => t.id == s.id) = some s := find_by_id_of_nodup db s hnd hs
  have hfst : (findByIdAndUpdateOps s.id db).1 = some (applyOperatorsUpdate s) := by
    simp [findByIdAndUpdateOps, h1]
  have hsnd : (findByIdAndUpdateOps s.id db).2 =
      db.map (fun t => if t.id == s.id then applyOperatorsUpdate s else t) := by
    simp [findByIdAndUpdateOps, h1]
  have hid : (applyOperatorsUpdate s).id = s.id := rfl
  have hnd2 : ((findByIdAndUpdateOps s.id db).2.map (fun t => t.id)).Nodup := by
    rw [hsnd, updateOps_preserves_ids db s.id (applyOperatorsUpdate s) hid]
    exact hnd
  have hmem2 : applyOperatorsUpdate s ∈ (findByIdAndUpdateOps s.id db).2 := by
    rw [hsnd]
    have := List.mem_map_of_mem (fun t => if t.id == s.id then applyOperatorsUpdate s else t) hs
    simpa using this
  have h2 : (findByIdAndUpdateOps s.id (findByIdAndUpdateOps s.id db).2).1 =
      some (applyOperatorsUpdate (applyOperatorsUpdate s)) := by
    have hfind := find_by_id_of_nodup (findByIdAndUpdateOps s.id db).2
      (applyOperatorsUpdate s) hnd2 hmem2
    rw [hid] at hfind
    generalize hg : (findByIdAndUpdateOps s.id db).2 = db2 at hfind ⊢
    simp [findByIdAndUpdateOps, hfind]
  refine ⟨hfst, rfl, rfl, rfl, rfl, rfl, rfl, rfl, rfl, ?_, ?_, h2, ?_, ?_⟩
  · rw [hfst]
    rfl
  · rw [hfst]
    rfl
  · simp [applyOperatorsUpdate]
    omega
  · simp [applyOperatorsUpdate]

/-- Witness for C4 at a concrete store and entity. -/
theorem C4_operator_update_witness :
    (([⟨1, "A", 60, "Math", "Pune", ["X"], false, 0⟩] :
          List Student).map (fun t => t.id)).Nodup ∧
    (⟨1, "A", 60, "Math", "Pune", ["X"], false, 0⟩ : Student) ∈
      ([⟨1, "A", 60, "Math", "Pune", ["X"], false, 0⟩] : List Student) ∧
    (findByIdAndUpdateOps 1 [⟨1, "A", 60, "Math", "Pune", ["X"], false, 0⟩]).1 =
      some (applyOperatorsUpdate ⟨1, "A", 60, "Math", "Pune", ["X"], false, 0⟩) ∧
    (applyOperatorsUpdate
        (applyOperatorsUpdate ⟨1, "A", 60, "Math", "Pune", ["X"], false, 0⟩)).marks =
      (60 : Int) + 10 ∧
    (applyOperatorsUpdate
        (applyOperatorsUpdate ⟨1, "A", 60, "Math", "Pune", ["X"], false, 0⟩)).subjects =
      ["X"] ++ ["AI", "AI"] :=
  have h := C4_operator_update [⟨1, "A", 60, "Math", "Pune", ["X"], false, 0⟩]
    ⟨1, "A", 60, "Math", "Pune", ["X"], false, 0⟩ (by decide) (by decide)
  ⟨by decide, by decide, h.1, h.2.2.2.2.2.2.2.2.2.2.2.2.1, h.2.2.2.2.2.2.2.2.2.2.2.2.2⟩

/-- After erasing the document with a given identifier from a store with
unique identifiers, no document with that identifier remains. -/
theorem find_after_erase (db : List Student) (s : Student)
    (hnd : (db.map (fun t => t.id)).Nodup) (hs : s ∈ db) :
    (db.eraseP (fun t => t.id == s.id)).find? (fun t => t.id == s.id) = none := by
  induction db with
  | nil => cases hs
  | cons h t ih =>
      rw [List.map_cons, List.nodup_cons] at hnd
      by_cases hc : h.id = s.id
      · rw [List.eraseP_cons_of_pos (by simp [hc])]
        apply List.find?_eq_none.mpr
        intro x hx hpx
        apply hnd.1
        rw [hc, ← (by simpa using hpx : x.id = s.id)]
        exact List.mem_map_of_mem (fun t => t.id) hx
      · have hmem : s ∈ t := by
          rcases List.mem_cons.mp hs with rfl | hm
          · exact absurd rfl hc
          · exact hm
        rw [List.eraseP_cons_of_neg (by simp [hc])]
        rw [List.find?_cons_of_neg _ (by simp [hc])]
        exact ih hnd.2 hmem

/-- C6: for an existing entity, the first delete succeeds with status
200, a confirmation message and the deleted entity; a second delete with
the same identifier against the resulting store returns status 404 with
the not-found error. -/
theorem C6_delete_one_shot (db : List Student) (s : Student)
    (hnd : (db.map (fun t => t.id)).Nodup) (hs : s ∈ db) :
    (findByIdAndDelete s.id db).1 = some s ∧
    (deleteHandler (Except.ok (findByIdAndDelete s.id db).1)).status = 200 ∧
    (deleteHandler (Except.ok (findByIdAndDelete s.id db).1)).success = true ∧
    (deleteHandler (Except.ok (findByIdAndDelete s.id db).1)).message =
      some "Student deleted successfully" ∧
    (deleteHandler (Except.ok (findByIdAndDelete s.id db).1)).data =
      RespData.student s ∧
    (findByIdAndDelete s.id (findByIdAndDelete s.id db).2).1 = none ∧
    (deleteHandler
        (Except.ok (findByIdAndDelete s.id (findByIdAndDelete s.id db).2).1)).status = 404 ∧
    (deleteHandler
        (Except.ok (findByIdAndDelete s.id (findByIdAndDelete s.id db).2).1)).success = false ∧
    (deleteHandler
        (Except.ok (findByIdAndDelete s.id (findByIdAndDelete s.id db).2).1)).error =
      some "Student not found" := by
  have h1 : db.find? (fun t => t.id == s.id) = some s := find_by_id_of_nodup db s hnd hs
  have hfst : (findByIdAndDelete s.id db).1 = some s := by
    simp [findByIdAndDelete, h1]
  have hsnd : (findByIdAndDelete s.id db).2 = db.eraseP (fun t => t.id == s.id) := by
    simp [findByIdAndDelete, h1]
  have hgone : ((findByIdAndDelete s.id db).2).find? (fun t => t.id == s.id) = none := by
    rw [hsnd]
    exact find_after_erase db s hnd hs
  have h2 : (findByIdAndDelete s.id (findByIdAndDelete s.id db).2).1 = none := by
    generalize hg : (findByIdAndDelete s.id db).2 = db2 at hgone ⊢
    simp [findByIdAndDelete, hgone]
  refine ⟨hfst, ?_, ?_, ?_, ?_, h2, ?_, ?_, ?_⟩ <;>
    simp [hfst, h2, deleteHandler]

/-- Witness for C6 at a concrete store and entity. -/
theorem C6_delete_one_shot_witness :
    (([⟨1, "A", 60, "Math", "Pune", [], false, 0⟩,
        ⟨2, "B", 40, "CS", "Mumbai", [], false, 1⟩] :
          List Student).map (fun t => t.id)).Nodup ∧
    (⟨1, "A", 60, "Math", "Pune", [], false, 0⟩ : Student) ∈
      ([⟨1, "A", 60, "Math", "Pune", [], false, 0⟩,
        ⟨2, "B", 40, "CS", "Mumbai", [], false, 1⟩] : List Student) ∧
    (findByIdAndDelete 1
        [⟨1, "A", 60, "Math", "Pune", [], false, 0⟩,
         ⟨2, "B", 40, "CS", "Mumbai", [], false, 1⟩]).1 =
      some ⟨1, "A", 60, "Math", "Pune", [], false, 0⟩ ∧
    (findByIdAndDelete 1
        (findByIdAndDelete 1
          [⟨1, "A", 60, "Math", "Pune", [], false, 0⟩,
           ⟨2, "B", 40, "CS", "Mumbai", [], false, 1⟩]).2).1 = none :=
  have h := C6_delete_one_shot
    [⟨1, "A", 60, "Math", "Pune", [], false, 0⟩,
     ⟨2, "B", 40, "CS", "Mumbai", [], false, 1⟩]
    ⟨1, "A", 60, "Math", "Pune", [], false, 0⟩ (by decide) (by decide)
  ⟨by decide, by decide, h.1, h.2.2.2.2.2.1⟩

/-- Each create request appends exactly one document to the store. -/
theorem runCreates_length : ∀ (bs : List StudentBody) (st : StoreState),
    (runCreates bs st).db.length = st.db.length + bs.length
  | [], _ => by simp [runCreates]
  | b :: bs, st => by
      rw [runCreates, runCreates_length bs]
      simp [createOne]
      omega

/-- The listing is sorted by creation timestamp descending. -/
theorem findAllSorted_sorted (db : List Student) :
    (findAllSorted db).Pairwise (fun a b => b.createdAt ≤ a.createdAt) :=
  @List.sorted_insertionSort Student (fun a b => b.createdAt ≤ a.createdAt) _
    ⟨fun a b => le_total b.createdAt a.createdAt⟩
    ⟨fun _ _ _ h1 h2 => le_trans h2 h1⟩ db

/-- The listing is a permutation of the store contents. -/
theorem findAllSorted_perm (db : List Student) :
    List.Perm (findAllSorted db) db :=
  List.perm_insertionSort _ db

/-- C7: after N creations into an empty store (and no deletion), the
list-all operation returns every stored entity, ordered by creation
timestamp descending, and the reported count is N, the length of the
returned sequence. -/
theorem C7_list_all (bodies : List StudentBody) (k : Nat) :
    (findAllSorted (runCreates bodies ⟨[], k⟩).db).length = bodies.length ∧
    (getAllHandler (Except.ok (runCreates bodies ⟨[], k⟩).db)).count =
      some (findAllSorted (runCreates bodies ⟨[], k⟩).db).length ∧
    List.Perm (findAllSorted (runCreates bodies ⟨[], k⟩).db)
      (runCreates bodies ⟨[], k⟩).db ∧
    (findAllSorted (runCreates bodies ⟨[], k⟩).db).Pairwise
      (fun a b => b.createdAt ≤ a.createdAt) := by
  have hlen : (runCreates bodies ⟨[], k⟩).db.length = bodies.length := by
    rw [runCreates_length]
    simp
  have hperm := findAllSorted_perm (runCreates bodies ⟨[], k⟩).db
  exact ⟨hperm.length_eq.trans hlen, rfl, hperm, findAllSorted_sorted _⟩

/-- The maximum of a non-empty list of integers is one of its elements. -/
theorem listMax_mem : ∀ l : List Int, l ≠ [] → listMax l ∈ l
  | [], h => absurd rfl h
  | [_], _ => by simp [listMax]
  | x :: y :: t, _ => by
      rw [listMax]
      rcases max_choice x (listMax (y :: t)) with h | h
      · rw [h]
        exact List.mem_cons_self _ _
      · rw [h]
        exact List.mem_cons_of_mem _ (listMax_mem (y :: t) (by simp))

/-- Every element of a list of integers is at most its `listMax`. -/
theorem listMax_ge : ∀ (l : List Int) (a : Int), a ∈ l → a ≤ listMax l
  | [], a, h => absurd h (List.not_mem_nil a)
  | [x], a, h => by
      rw [List.mem_singleton] at h
      simp [listMax, h]
  | x :: y :: t, a, h => by
      rw [listMax]
      rcases List.mem_cons.mp h with rfl | h2
      · exact le_max_left _ _
      · exact le_trans (listMax_ge (y :: t) a h2) (le_max_right _ _)

/-- The minimum of a non-empty list of integers is one of its elements. -/
theorem listMin_mem : ∀ l : List Int, l ≠ [] → listMin l ∈ l
  | [], h => absurd rfl h
  | [_], _ => by simp [listMin]
  | x :: y :: t, _ => by
      rw [listMin]
      rcases min_choice x (listMin (y :: t)) with h | h
      · rw [h]
        exact List.mem_cons_self _ _
      · rw [h]
        exact List.mem_cons_of_mem _ (listMin_mem (y :: t) (by simp))

/-- Every element of a list of integers is at least its `listMin`. -/
theorem listMin_le : ∀ (l : List Int) (a : Int), a ∈ l → listMin l ≤ a
  | [], a, h => absurd h (List.not_mem_nil a)
  | [x], a, h => by
      rw [List.mem_singleton] at h
      simp [listMin, h]
  | x :: y :: t, a, h => by
      rw [listMin]
      rcases List.mem_cons.mp h with rfl | h2
      · exact min_le_left _ _
      · exact le_trans (min_le_right _ _) (listMin_le (y :: t) a h2)

/-- The aggregation output is a permutation of one group record per
distinct course value. -/
theorem statsOf_perm (db : List Student) :
    List.Perm (statsOf db) ((coursesOf db).map (groupStats db)) :=
  List.perm_insertionSort _ _

/-- The aggregation output is sorted by average marks descending. -/
theorem statsOf_sorted (db : List Student) :
    (statsOf db).Pairwise (fun a b => b.averageMarks ≤ a.averageMarks) :=
  @List.sorted_insertionSort CourseStats (fun a b => b.averageMarks ≤ a.averageMarks) _
    ⟨fun a b => le_total b.averageMarks a.averageMarks⟩
    ⟨fun _ _ _ h1 h2 => le_trans h2 h1⟩ _

/-- C5: every group record returned by the stats operation is keyed by a
course that occurs in the store; its count is the number of students of
that course, its average times its count equals the sum of their marks,
and its max/min bound the group's marks and are attained by members of
the group; each stored student's course has a group record, the group
keys are pairwise distinct (a partition by course), and the records are
ordered by average marks descending. -/
theorem C5_stats_aggregation (db : List Student) (r : CourseStats)
    (hr : r ∈ statsOf db) :
    (∃ s ∈ db, s.course = r.groupId) ∧
    r.totalStudents = (db.filter (fun s => s.course == r.groupId)).length ∧
    (r.totalStudents : ℚ) * r.averageMarks =
      ((db.filter (fun s => s.course == r.groupId)).map (fun s => (s.marks : ℚ))).sum ∧
    (∀ s ∈ db, s.course = r.groupId → s.marks ≤ r.maxMarks ∧ r.minMarks ≤ s.marks) ∧
    (∃ s ∈ db, s.course = r.groupId ∧ s.marks = r.maxMarks) ∧
    (∃ s ∈ db, s.course = r.groupId ∧ s.marks = r.minMarks) ∧
    (statsOf db).Pairwise (fun a b => b.averageMarks ≤ a.averageMarks) ∧
    ((statsOf db).map (fun g => g.groupId)).Nodup ∧
    (∀ s ∈ db, ∃ g ∈ statsOf db, g.groupId = s.course) := by
  have hperm := statsOf_perm db
  have hmem : r ∈ (coursesOf db).map (groupStats db) := hperm.mem_iff.mp hr
  obtain ⟨c, hc, rfl⟩ := List.mem_map.mp hmem
  obtain ⟨s0, hs0, hs0c⟩ := List.mem_map.mp (List.mem_dedup.mp hc)
  have hs0f : s0 ∈ db.filter (fun s => s.course == c) :=
    List.mem_filter.mpr ⟨hs0, by simp [hs0c]⟩
  have hgm : groupMarks db c ≠ [] := by
    rw [groupMarks]
    simpa using List.ne_nil_of_mem hs0f
  have hcast : ((groupMarks db c).length : ℚ) ≠ 0 :=
    Nat.cast_ne_zero.mpr (List.length_pos.mpr hgm).ne'
  simp only [groupStats]
  refine ⟨⟨s0, hs0, hs0c⟩, ?_, ?_, ?_, ?_, ?_, statsOf_sorted db, ?_, ?_⟩
  · rw [groupMarks, List.length_map]
  · rw [mul_comm, div_mul_cancel₀ _ hcast, groupMarks, List.map_map]
    rfl
  · intro s hs hsc
    have hfs : s ∈ db.filter (fun t => t.course == c) :=
      List.mem_filter.mpr ⟨hs, by simp [hsc]⟩
    have hms : s.marks ∈ groupMarks db c := by
      rw [groupMarks]
      exact List.mem_map_of_mem _ hfs
    exact ⟨listMax_ge _ _ hms, listMin_le _ _ hms⟩
  · obtain ⟨t, htf, htm⟩ := by
      have := listMax_mem (groupMarks db c) hgm
      rw [groupMarks] at this
      exact List.mem_map.mp this
    have ht := List.mem_filter.mp htf
    exact ⟨t, ht.1, by simpa using ht.2, htm⟩
  · obtain ⟨t, htf, htm⟩ := by
      have := listMin_mem (groupMarks db c) hgm
      rw [groupMarks] at this
      exact List.mem_map.mp this
    have ht := List.mem_filter.mp htf
    exact ⟨t, ht.1, by simpa using ht.2, htm⟩
  · have hmapeq : ((coursesOf db).map (groupStats db)).map (fun g => g.groupId) =
        coursesOf db := by
      rw [List.map_map]
      exact List.map_id _
    have hp2 : ((statsOf db).map (fun g => g.groupId)).Perm (coursesOf db) := by
      have := hperm.map (fun g => g.groupId)
      rwa [hmapeq] at this
    exact hp2.nodup_iff.mpr (List.nodup_dedup _)
  · intro s hs
    have hcc : s.course ∈ coursesOf db :=
      List.mem_dedup.mpr (List.mem_map_of_mem _ hs)
    exact ⟨groupStats db s.course,
      hperm.mem_iff.mpr (List.mem_map_of_mem _ hcc), rfl⟩

/-- Witness for C5: a concrete store with two courses, instantiated at
the "Math" group record. -/
theorem C5_stats_aggregation_witness :
    groupStats
        [⟨1, "A", 60, "Math", "Pune", [], false, 0⟩,
         ⟨2, "B", 40, "CS", "Mumbai", [], false, 1⟩,
         ⟨3, "C", 50, "Math", "Delhi", [], false, 2⟩] "Math" ∈
      statsOf
        [⟨1, "A", 60, "Math", "Pune", [], false, 0⟩,
         ⟨2, "B", 40, "CS", "Mumbai", [], false, 1⟩,
         ⟨3, "C", 50, "Math", "Delhi", [], false, 2⟩] ∧
    ((∃ s ∈ ([⟨1, "A", 60, "Math", "Pune", [], false, 0⟩,
         ⟨2, "B", 40, "CS", "Mumbai", [], false, 1⟩,
         ⟨3, "C", 50, "Math", "Delhi", [], false, 2⟩] : List Student),
        s.course = (groupStats
          [⟨1, "A", 60, "Math", "Pune", [], false, 0⟩,
           ⟨2, "B", 40, "CS", "Mumbai", [], false, 1⟩,
           ⟨3, "C", 50, "Math", "Delhi", [], false, 2⟩] "Math").groupId) ∧
      (groupStats
          [⟨1, "A", 60, "Math", "Pune", [], false, 0⟩,
           ⟨2, "B", 40, "CS", "Mumbai", [], false, 1⟩,
           ⟨3, "C", 50, "Math", "Delhi", [], false, 2⟩] "Math").totalStudents =
        (([⟨1, "A", 60, "Math", "Pune", [], false, 0⟩,
           ⟨2, "B", 40, "CS", "Mumbai", [], false, 1⟩,
           ⟨3, "C", 50, "Math", "Delhi", [], false, 2⟩] : List Student).filter
          (fun s => s.course == (groupStats
            [⟨1, "A", 60, "Math", "Pune", [], false, 0⟩,
             ⟨2, "B", 40, "CS", "Mumbai", [], false, 1⟩,
             ⟨3, "C", 50, "Math", "Delhi", [], false, 2⟩] "Math").groupId)).length ∧
      ((groupStats
          [⟨1, "A", 60, "Math", "Pune", [], false, 0⟩,
           ⟨2, "B", 40, "CS", "Mumbai", [], false, 1⟩,
           ⟨3, "C", 50, "Math", "Delhi", [], false, 2⟩] "Math").totalStudents : ℚ) *
        (groupStats
          [⟨1, "A", 60, "Math", "Pune", [], false, 0⟩,
           ⟨2, "B", 40, "CS", "Mumbai", [], false, 1⟩,
           ⟨3, "C", 50, "Math", "Delhi", [], false, 2⟩] "Math").averageMarks =
        ((([⟨1, "A", 60, "Math", "Pune", [], false, 0⟩,
            ⟨2, "B", 40, "CS", "Mumbai", [], false, 1⟩,
            ⟨3, "C", 50, "Math", "Delhi", [], false, 2⟩] : List Student).filter
          (fun s => s.course == (groupStats
            [⟨1, "A", 60, "Math", "Pune", [], false, 0⟩,
             ⟨2, "B", 40, "CS", "Mumbai", [], false, 1⟩,
             ⟨3, "C", 50, "Math", "Delhi", [], false, 2⟩] "Math").groupId)).map
          (fun s => (s.marks : ℚ))).sum ∧
      (∀ s ∈ ([⟨1, "A", 60, "Math", "Pune", [], false, 0⟩,
           ⟨2, "B", 40, "CS", "Mumbai", [], false, 1⟩,
           ⟨3, "C", 50, "Math", "Delhi", [], false, 2⟩] : List Student),
        s.course = (groupStats
          [⟨1, "A", 60, "Math", "Pune", [], false, 0⟩,
           ⟨2, "B", 40, "CS", "Mumbai", [], false, 1⟩,
           ⟨3, "C", 50, "Math", "Delhi", [], false, 2⟩] "Math").groupId →
          s.marks ≤ (groupStats
            [⟨1, "A", 60, "Math", "Pune", [], false, 0⟩,
             ⟨2, "B", 40, "CS", "Mumbai", [], false, 1⟩,
             ⟨3, "C", 50, "Math", "Delhi", [], false, 2⟩] "Math").maxMarks ∧
          (groupStats
            [⟨1, "A", 60, "Math", "Pune", [], false, 0⟩,
             ⟨2, "B", 40, "CS", "Mumbai", [], false, 1⟩,
             ⟨3, "C", 50, "Math", "Delhi", [], false, 2⟩] "Math").minMarks ≤ s.marks) ∧
      (∃ s ∈ ([⟨1, "A", 60, "Math", "Pune", [], false, 0⟩,
           ⟨2, "B", 40, "CS", "Mumbai", [], false, 1⟩,
           ⟨3, "C", 50, "Math", "Delhi", [], false, 2⟩] : List Student),
        s.course = (groupStats
          [⟨1, "A", 60, "Math", "Pune", [], false, 0⟩,
           ⟨2, "B", 40, "CS", "Mumbai", [], false, 1⟩,
           ⟨3, "C", 50, "Math", "Delhi", [], false, 2⟩] "Math").groupId ∧
        s.marks = (groupStats
          [⟨1, "A", 60, "Math", "Pune", [], false, 0⟩,
           ⟨2, "B", 40, "CS", "Mumbai", [], false, 1⟩,
           ⟨3, "C", 50, "Math", "Delhi", [], false, 2⟩] "Math").maxMarks) ∧
      (∃ s ∈ ([⟨1, "A", 60, "Math", "Pune", [], false, 0⟩,
           ⟨2, "B", 40, "CS", "Mumbai", [], false, 1⟩,
           ⟨3, "C", 50, "Math", "Delhi", [], false, 2⟩] : List Student),
        s.course = (groupStats
          [⟨1, "A", 60, "Math", "Pune", [], false, 0⟩,
           ⟨2, "B", 40, "CS", "Mumbai", [], false, 1⟩,
           ⟨3, "C", 50, "Math", "Delhi", [], false, 2⟩] "Math").groupId ∧
        s.marks = (groupStats
          [⟨1, "A", 60, "Math", "Pune", [], false, 0⟩,
           ⟨2, "B", 40, "CS", "Mumbai", [], false, 1⟩,
           ⟨3, "C", 50, "Math", "Delhi", [], false, 2⟩] "Math").minMarks) ∧
      (statsOf
          [⟨1, "A", 60, "Math", "Pune", [], false, 0⟩,
           ⟨2, "B", 40, "CS", "Mumbai", [], false, 1⟩,
           ⟨3, "C", 50, "Math", "Delhi", [], false, 2⟩]).Pairwise
        (fun a b => b.averageMarks ≤ a.averageMarks) ∧
      ((statsOf
          [⟨1, "A", 60, "Math", "Pune", [], false, 0⟩,
           ⟨2, "B", 40, "CS", "Mumbai", [], false, 1⟩,
           ⟨3, "C", 50, "Math", "Delhi", [], false, 2⟩]).map
        (fun g => g.groupId)).Nodup ∧
      (∀ s ∈ ([⟨1, "A", 60, "Math", "Pune", [], false, 0⟩,
           ⟨2, "B", 40, "CS", "Mumbai", [], false, 1⟩,
           ⟨3, "C", 50, "Math", "Delhi", [], false, 2⟩] : List Student),
        ∃ g ∈ statsOf
          [⟨1, "A", 60, "Math", "Pune", [], false, 0⟩,
           ⟨2, "B", 40, "CS", "Mumbai", [], false, 1⟩,
           ⟨3, "C", 50, "Math", "Delhi", [], false, 2⟩],
          g.groupId = s.course)) :=
  have hmem : groupStats
      [⟨1, "A", 60, "Math", "Pune", [], false, 0⟩,
       ⟨2, "B", 40, "CS", "Mumbai", [], false, 1⟩,
       ⟨3, "C", 50, "Math", "Delhi", [], false, 2⟩] "Math" ∈
      statsOf
        [⟨1, "A", 60, "Math", "Pune", [], false, 0⟩,
         ⟨2, "B", 40, "CS", "Mumbai", [], false, 1⟩,
         ⟨3, "C", 50, "Math", "Delhi", [], false, 2⟩] :=
    (List.perm_insertionSort _ _).mem_iff.mpr (by
      have h : coursesOf
          [⟨1, "A", 60, "Math", "Pune", [], false, 0⟩,
           ⟨2, "B", 40, "CS", "Mumbai", [], false, 1⟩,
           ⟨3, "C", 50, "Math", "Delhi", [], false, 2⟩] = ["CS", "Math"] := by decide
      rw [h]
      exact List.mem_cons_of_mem _ (List.mem_cons_self _ _))
  ⟨hmem,
   C5_stats_aggregation
     [⟨1, "A", 60, "Math", "Pune", [], false, 0⟩,
      ⟨2, "B", 40, "CS", "Mumbai", [], false, 1⟩,
      ⟨3, "C", 50, "Math", "Delhi", [], false, 2⟩]
     (groupStats
       [⟨1, "A", 60, "Math", "Pune", [], false, 0⟩,
        ⟨2, "B", 40, "CS", "Mumbai", [], false, 1⟩,
        ⟨3, "C", 50, "Math", "Delhi", [], false, 2⟩] "Math")
     hmem⟩
